import Mathlib

/-!
Verification of the estuary-type-map ML salinity pipeline.

This file gives a shallow embedding of the parts of the pipeline the
specification talks about:

* `scripts/ml_salinity/add_gcc_to_features.py`
  (`encode_categorical`, `match_gcc_to_segments`, `process_region`);
* `scripts/ml_salinity/ml_step2_train_model_hybrid.py`
  (feature-column selection of the inland and coastal models);
* `scripts/ml_salinity/ml_step3_predict_hybrid.py`
  (`predict_hybrid`, `get_confidence_level`, `classify_salinity`,
  the distance-based rule layer, missing-feature handling);
* `scripts/ml_salinity/ml_step3_predict.py`
  (the two-rule distance constraint layer of the non-hybrid predictor);
* `scripts/ml_salinity/ml_step4_validate_improved.py`
  (`validate_globsalt_holdout`, the holdout-marker guard).

Python floats that only ever hold small decimal constants and are compared
with `<` / `<=` are modelled as rationals; pandas missing values (NaN) are
modelled by an explicit `nan` constructor / `Option`.  Random-forest models
are abstracted as arbitrary functions from a segment to a predicted class
and a maximal class probability: every theorem below quantifies over them,
which is exactly the "regardless of what the model predicts" reading used
by the specification.
-/

namespace EstuaryMap

/-- A cell value of a pandas DataFrame column: missing (NaN), a number, or
a string.  GCC categorical columns hold strings; numeric indicator columns
hold numbers. -/
inductive Val where
  | nan : Val
  | num : ℚ → Val
  | str : String → Val
deriving DecidableEq, Repr

/-- A DataFrame, modelled as an association list from column name to the
column's cells (in row order). -/
abbrev Df : Type := List (String × List Val)

/-- First-match column lookup (pandas column access). -/
def lookupCol {α : Type} (k : String) : List (String × α) → Option α
  | [] => none
  | (k2, v) :: rest => if k2 = k then some v else lookupCol k rest

/-- Character-list test: `s` starts with `pat`. -/
def hasPreAux : List Char → List Char → Bool
  | _, [] => true
  | [], _ :: _ => false
  | a :: as, b :: bs => a = b && hasPreAux as bs

/-- Character-list substring test, checking every suffix. -/
def containsAux : List Char → List Char → Bool
  | [], pat => pat.isEmpty
  | a :: rest, pat => hasPreAux (a :: rest) pat || containsAux rest pat

/-- Python `sub in s` (substring containment). -/
def strContainsSub (s sub : String) : Bool := containsAux s.toList sub.toList

/-- Python `s.startswith(pre)`. -/
def strStarts (s pre : String) : Bool := hasPreAux s.toList pre.toList

/-- First-occurrence deduplication (pandas `unique()` keeps first
occurrences); `seen` accumulates the values already emitted. -/
def dedupAux (seen : List String) : List String → List String
  | [] => []
  | a :: rest => if a ∈ seen then dedupAux seen rest else a :: dedupAux (a :: seen) rest

/-!
## add_gcc_to_features.py
-/

/-- The category vocabulary `encode_categorical` uses for a feature
(add_gcc_to_features.py lines 137-146): a fixed, closed list for the two
coastal categorical indicators, and the data-derived unique values
otherwise. -/
def categoriesFor (feature_name : String) (vals : List Val) : List String :=
  if strContainsSub feature_name "coast_type_flag" then
    ["Other", "Rocky", "Sandy", "Vegetated"]
  else if strContainsSub feature_name "veg_type" then
    ["Mangroves", "Salt-marshes"]
  else
    dedupAux [] (vals.filterMap fun v => match v with
      | Val.str s => some s
      | _ => none)

/-- One dummy (one-hot) column: indicator of the cell being the given
category string.  A NaN cell or a cell holding a different category gives
0, exactly as `pd.get_dummies` followed by zero-filling of the expected
columns does. -/
def dummyCol (vals : List Val) (cat : String) : List Val :=
  vals.map fun v => if v = Val.str cat then Val.num 1 else Val.num 0

/-- `encode_categorical(df, feature_name)` (add_gcc_to_features.py lines
127-164): drop the categorical column and append one dummy column per
vocabulary category, returning the new DataFrame and the list of expected
dummy column names.  If the column is absent, return the DataFrame
unchanged with an empty list. -/
def encode_categorical (df : Df) (feature_name : String) : Df × List String :=
  match lookupCol feature_name df with
  | none => (df, [])
  | some vals =>
    let categories := categoriesFor feature_name vals
    let expected := categories.map fun c => feature_name ++ "_" ++ c
    let dummies := categories.map fun c => (feature_name ++ "_" ++ c, dummyCol vals c)
    ((df.filter fun p => p.1 != feature_name) ++ dummies, expected)

/-- `GCC_GEOPHYSICAL_FEATURES` (add_gcc_to_features.py lines 57-84). -/
def GCC_GEOPHYSICAL_FEATURES : List String :=
  ["z_peak_max_1km_copdem", "he", "ev",
   "ns", "bs_copdem", "cs_copdem",
   "x_shoreline", "doc", "tr_zone_width",
   "lu_trees", "lu_crop", "lu_built", "lu_water", "lu_wet", "lu_mangr",
   "coast_type_flag", "veg_type"]

/-- `GCC_HYDROMETEOROLOGICAL_FEATURES` (add_gcc_to_features.py lines
86-105). -/
def GCC_HYDROMETEOROLOGICAL_FEATURES : List String :=
  ["swh_p50", "swh_p95", "pp1d_p50",
   "mhhw", "mllw",
   "ssl_p95", "wl_rp10_mean",
   "t2m_p50", "t2m_p95", "tp_p50", "tp_p95"]

/-- `ALL_GCC_FEATURES` as it stands when `match_gcc_to_segments` runs:
the two source lists plus the derived `tidal_range` appended by
`load_gcc_data` (add_gcc_to_features.py line 202). -/
def ALL_GCC_FEATURES : List String :=
  GCC_GEOPHYSICAL_FEATURES ++ GCC_HYDROMETEOROLOGICAL_FEATURES ++ ["tidal_range"]

/-- The `gcc_`-prefixed column names written by `match_gcc_to_segments`. -/
def gccColNames : List String := ALL_GCC_FEATURES.map fun f => "gcc_" ++ f

/-- `MATCH_DISTANCE_DEGREES = 0.05` (add_gcc_to_features.py line 50). -/
def MATCH_DISTANCE_DEGREES : ℚ := 1 / 20

/-- The value a single gcc feature cell receives in
`match_gcc_to_segments` (lines 239-241): the whole column is initialised
to NaN, and only rows whose nearest-transect distance is within
`MATCH_DISTANCE_DEGREES` are overwritten with the matched transect value. -/
def gcc_feature_value (nearest_dist : ℚ) (matched : Val) : Val :=
  if nearest_dist ≤ MATCH_DISTANCE_DEGREES then matched else Val.nan

/-- The coastal-segment test of `match_gcc_to_segments`
(add_gcc_to_features.py line 212): the region has at least one segment
with `dist_to_coast_km <= 100` (a NaN distance compares false in
pandas).  Every Feature Record produced by the pipeline carries the
`dist_to_coast_km` column, so the missing-column case (a pandas
`KeyError` in the source) is folded into the empty-coastal branch. -/
def coastalNonempty (df : Df) : Bool :=
  match lookupCol "dist_to_coast_km" df with
  | none => false
  | some vals => vals.any fun v =>
      match v with
      | Val.num q => decide (q ≤ 100)
      | _ => false

/-- The column-level effect of one `process_region` run
(add_gcc_to_features.py lines 286-299 and 207-267) on a region's Feature
Record: drop every existing `gcc_`-prefixed column; then, if the region
has no segment within 100 km of the coast, `match_gcc_to_segments`
returns early (lines 215-217) and the record is persisted WITHOUT any
gcc column; otherwise append one `gcc_<f>` column per GCC feature (the
region-dependent cell values are abstracted as `g`) and one-hot encode
`gcc_coast_type_flag` and `gcc_veg_type` with `encode_categorical`. -/
def gcc_step (df : Df) (g : String → List Val) : Df :=
  let cleaned := df.filter fun p => !(strStarts p.1 "gcc_")
  if coastalNonempty cleaned then
    let withG := cleaned ++ (gccColNames.map fun c => (c, g c))
    let d1 := (encode_categorical withG "gcc_coast_type_flag").1
    (encode_categorical d1 "gcc_veg_type").1
  else cleaned

/-- Column-name-level counterpart of `encode_categorical` for a feature
with a data-independent vocabulary. -/
def encode_cols (cols : List String) (name : String) (expected : List String) : List String :=
  if name ∈ cols then (cols.filter fun c => c != name) ++ expected else cols

/-- Column-name-level counterpart of the coastal path of `gcc_step`
(the branch taken when the region has at least one segment within
100 km): on that path the output column set is a function of the input
column set alone.  On the empty-coastal path the output columns are just
the input columns with every `gcc_`-prefixed one removed. -/
def gcc_step_cols (cols : List String) : List String :=
  let cleaned := cols.filter fun c => !(strStarts c "gcc_")
  let withG := cleaned ++ gccColNames
  let d1 := encode_cols withG "gcc_coast_type_flag"
    (["Other", "Rocky", "Sandy", "Vegetated"].map fun c => "gcc_coast_type_flag" ++ "_" ++ c)
  encode_cols d1 "gcc_veg_type"
    (["Mangroves", "Salt-marshes"].map fun c => "gcc_veg_type" ++ "_" ++ c)

/-!
## ml_step2_train_model_hybrid.py : feature-column selection
-/

/-- `feature_cols` of `train_inland_model`
(ml_step2_train_model_hybrid.py lines 130-143): GRIT, Durr and the DynQual
temperature proxy only; the modeled salinity, TDS and discharge fields are
commented out as removed. -/
def inland_feature_cols : List String :=
  ["dist_to_coast_km", "log_dist_to_coast", "strahler_order",
   "length", "upstream_area", "sinuosity", "azimuth", "is_mainstem",
   "log_upstream_area", "length_km", "abs_latitude",
   "dist_x_strahler", "area_per_length",
   "in_durr_estuary", "durr_type_encoded",
   "dynqual_temperature_C"]

/-- `base_features` of `train_coastal_model`
(ml_step2_train_model_hybrid.py lines 241-247), which still lists all four
DynQual fields, including modeled TDS, discharge and salinity. -/
def coastal_base_features : List String :=
  ["dist_to_coast_km", "log_dist_to_coast", "strahler_order",
   "length", "upstream_area", "sinuosity", "azimuth", "is_mainstem",
   "log_upstream_area", "length_km", "in_durr_estuary", "durr_type_encoded",
   "abs_latitude", "dist_x_strahler", "area_per_length",
   "dynqual_tds_mgL", "dynqual_discharge_m3s", "dynqual_temperature_C",
   "dynqual_salinity_psu"]

/-- `available_features = [f for f in feature_cols if f in data.columns]`
(both training functions). -/
def availableFeatures (feature_cols data_cols : List String) : List String :=
  feature_cols.filter fun f => data_cols.contains f

/-- `feature_cols = base_features + gcc_features` of `train_coastal_model`
(lines 250-252), where the gcc features are every data column starting
with `gcc_`. -/
def coastal_feature_cols (data_cols : List String) : List String :=
  coastal_base_features ++ (data_cols.filter fun c => strStarts c "gcc_")

/-!
## ml_step3_predict_hybrid.py
-/

/-- One row of a region's Feature Record, as consumed by
`predict_hybrid`.  The trained models are abstracted as functions of the
whole segment, so `feats` carries whatever feature values the row holds. -/
structure Segment where
  global_id : ℕ
  has_salinity : Bool
  salinity_mean_psu : Option ℚ
  dist_to_coast_km : ℚ
  feats : List (String × ℚ)
deriving DecidableEq, Repr

/-- One row of the classification result written by `predict_hybrid`.
`salinity_class_final = none` models the early-return branch (lines
129-135) in which no predicted-class column is created at all. -/
structure OutRow where
  global_id : ℕ
  salinity_class_final : Option String
  prediction_probability : ℚ
  confidence_level : String
  classification_method : String
  dist_to_coast_km : ℚ
deriving DecidableEq, Repr

/-- `classify_salinity` as defined inside `predict_hybrid`
(ml_step3_predict_hybrid.py lines 266-278): the Venice-System thresholds,
with NaN mapped to the string Unknown. -/
def classify_salinity : Option ℚ → String
  | none => "Unknown"
  | some sal =>
    if sal < 1/2 then "Freshwater"
    else if sal < 5 then "Oligohaline"
    else if sal < 18 then "Mesohaline"
    else if sal < 30 then "Polyhaline"
    else "Euhaline"

/-- `get_confidence_level` (ml_step3_predict_hybrid.py lines 235-243). -/
def get_confidence_level (prob : ℚ) : String :=
  if prob > 3/4 then "HIGH"
  else if prob > 3/5 then "MEDIUM"
  else if prob > 9/20 then "LOW"
  else "VERY-LOW"

/-- The `isin(['Oligohaline', 'Mesohaline', 'Polyhaline'])` estuarine-class
test used by the rule layers (ml_step3_predict_hybrid.py line 254). -/
def isEstuarinePred (c : Option String) : Bool :=
  c == some "Oligohaline" || c == some "Mesohaline" || c == some "Polyhaline"

/-- The distance-based constraint of `predict_hybrid`
(ml_step3_predict_hybrid.py lines 252-261), per row: a prediction more
than 200 km from the coast whose class is one of the three estuarine
classes is reset to Freshwater with HIGH confidence and the
Rule_Based_Distance method tag; every other row is untouched. -/
def apply_distance_rule (r : OutRow) : OutRow :=
  if r.dist_to_coast_km > 200 ∧ isEstuarinePred r.salinity_class_final then
    { r with salinity_class_final := some "Freshwater"
             confidence_level := "HIGH"
             classification_method := "Rule_Based_Distance" }
  else r

/-- Row built for a GlobSalt-validated segment
(ml_step3_predict_hybrid.py lines 280-283). -/
def mkValidatedRow (s : Segment) : OutRow :=
  { global_id := s.global_id
    salinity_class_final := some (classify_salinity s.salinity_mean_psu)
    prediction_probability := 1
    confidence_level := "HIGH"
    classification_method := "GlobSalt_Validated"
    dist_to_coast_km := s.dist_to_coast_km }

/-- Row built for an ML-predicted segment: predicted class and maximal
class probability from the (abstracted) model, confidence from
`get_confidence_level`, and the zone's method tag
(ml_step3_predict_hybrid.py lines 183-185 and 213-215, plus line 245). -/
def mkMLRow (model : Segment → String × ℚ) (tag : String) (s : Segment) : OutRow :=
  { global_id := s.global_id
    salinity_class_final := some (model s).1
    prediction_probability := (model s).2
    confidence_level := get_confidence_level (model s).2
    classification_method := tag
    dist_to_coast_km := s.dist_to_coast_km }

/-- `predict_hybrid(region, models)` (ml_step3_predict_hybrid.py lines
101-304), with the two random-forest models abstracted as functions.
If every segment is validated the code returns early (lines 129-135)
tagging all rows GlobSalt_Validated at HIGH confidence and probability 1
without creating a predicted-class column.  Otherwise segments within
50 km go to the coastal model and the rest to the inland model, the
distance rule is applied to the ML rows only, and the validated rows
(classified from measured salinity) are concatenated in front. -/
def predict_hybrid (coastal inland : Segment → String × ℚ) (segs : List Segment) :
    List OutRow :=
  let validated := segs.filter fun s => s.has_salinity
  let to_predict := segs.filter fun s => !s.has_salinity
  if to_predict.isEmpty then
    segs.map fun s =>
      { global_id := s.global_id
        salinity_class_final := none
        prediction_probability := 1
        confidence_level := "HIGH"
        classification_method := "GlobSalt_Validated"
        dist_to_coast_km := s.dist_to_coast_km }
  else
    let coastalSegs := to_predict.filter fun s => s.dist_to_coast_km ≤ 50
    let inlandSegs := to_predict.filter fun s => s.dist_to_coast_km > 50
    let all_predicted :=
      coastalSegs.map (mkMLRow coastal "ML_Coastal") ++
      inlandSegs.map (mkMLRow inland "ML_Inland")
    validated.map mkValidatedRow ++ all_predicted.map apply_distance_rule

/-- Missing-feature handling of the coastal branch of `predict_hybrid`
(ml_step3_predict_hybrid.py lines 162-167): every expected feature column
absent from the region's Feature Record is appended with the value 0, and
prediction proceeds. -/
def fill_missing_features (features : List String) (cols : List (String × ℚ)) :
    List (String × ℚ) :=
  cols ++ ((features.filter fun f => (lookupCol f cols).isNone).map fun f => (f, 0))

/-!
## ml_step3_predict.py : the two-rule constraint layer
-/

/-- The distance-based constraint layer of the non-hybrid predictor
(ml_step3_predict.py lines 193-215), per row.  The estuarine mask is
computed once, before Rule 1 runs (lines 194-195).  Rule 1 is the hard
ceiling (over 200 km); Rule 2 reclassifies low-confidence estuarine
predictions in the 100-200 km band to Freshwater at MEDIUM confidence
with the distinct Rule_Based_Hybrid tag. -/
def apply_distance_rules_step3 (r : OutRow) : OutRow :=
  let estuarine := isEstuarinePred r.salinity_class_final
  let r1 :=
    if r.dist_to_coast_km > 200 ∧ estuarine then
      { r with salinity_class_final := some "Freshwater"
               confidence_level := "HIGH"
               classification_method := "Rule_Based_Distance" }
    else r
  if (r.dist_to_coast_km > 100 ∧ r.dist_to_coast_km ≤ 200) ∧
      (r1.confidence_level = "VERY-LOW" ∨ r1.confidence_level = "LOW") ∧ estuarine then
    { r1 with salinity_class_final := some "Freshwater"
              confidence_level := "MEDIUM"
              classification_method := "Rule_Based_Hybrid" }
  else r1

/-!
## ml_step4_validate_improved.py
-/

/-- `validate_globsalt_holdout(region_code)` (ml_step4_validate_improved.py
lines 47-78), up to the holdout guard.  `holdout_marker` is the content of
the persisted `holdout_region.txt` (already stripped), or `none` when the
file does not exist; `rest` abstracts everything after the guard (model
loading, prediction, scoring).  The code returns `None` when the marker
file is missing, and warns and returns `None` when the caller's region
differs from the persisted marker; only a region equal to the marker is
scored. -/
def validate_globsalt_holdout {α : Type} (region_code : String)
    (holdout_marker : Option String) (rest : Unit → Option α) : Option α :=
  match holdout_marker with
  | none => none
  | some holdout_region =>
    if region_code ≠ holdout_region then none else rest ()

/-!
## Helper lemmas
-/

/-- The hybrid distance rule is idempotent row-wise: once a row is forced
to Freshwater it is no longer an estuarine prediction, so a second pass
leaves it alone. -/
lemma apply_distance_rule_idem (r : OutRow) :
    apply_distance_rule (apply_distance_rule r) = apply_distance_rule r := by
  simp only [apply_distance_rule]
  split_ifs <;> rfl

lemma lookupCol_append_of_none {α : Type} (k : String) (l1 l2 : List (String × α))
    (h : lookupCol k l1 = none) : lookupCol k (l1 ++ l2) = lookupCol k l2 := by
  induction l1 with
  | nil => rfl
  | cons a t ih =>
    obtain ⟨k2, v⟩ := a
    by_cases hk : k2 = k
    · simp [lookupCol, hk] at h
    · simp only [lookupCol, hk, if_false, List.cons_append] at h ⊢
      exact ih h

lemma lookupCol_append_of_some {α : Type} (k : String) (l1 l2 : List (String × α))
    (v : α) (h : lookupCol k l1 = some v) : lookupCol k (l1 ++ l2) = some v := by
  induction l1 with
  | nil => simp [lookupCol] at h
  | cons a t ih =>
    obtain ⟨k2, w⟩ := a
    by_cases hk : k2 = k
    · simp only [lookupCol, hk, if_true, List.cons_append] at h ⊢
      exact h
    · simp only [lookupCol, hk, if_false, List.cons_append] at h ⊢
      exact ih h

lemma lookupCol_map_zero (k : String) (l : List String) (h : k ∈ l) :
    lookupCol k (l.map fun f => (f, (0 : ℚ))) = some 0 := by
  induction l with
  | nil => simp at h
  | cons a t ih =>
    by_cases hk : a = k
    · simp [lookupCol, hk]
    · rcases List.mem_cons.mp h with h1 | h1
      · exact absurd h1.symm hk
      · simp only [List.map_cons, lookupCol, hk, if_false]
        exact ih h1

lemma lookupCol_eq_none_iff {α : Type} (k : String) (l : List (String × α)) :
    lookupCol k l = none ↔ k ∉ l.map Prod.fst := by
  induction l with
  | nil => simp [lookupCol]
  | cons a t ih =>
    obtain ⟨k2, v⟩ := a
    by_cases hk : k2 = k
    · simp [lookupCol, hk]
    · simp [lookupCol, hk, ih, Ne.symm hk]

lemma cols_filter {α : Type} (df : List (String × α)) (q : String → Bool) :
    (df.filter fun p => q p.1).map Prod.fst = (df.map Prod.fst).filter q := by
  induction df with
  | nil => rfl
  | cons a t ih =>
    by_cases hq : q a.1
    · simp [List.filter_cons, hq, ih]
    · simp [List.filter_cons, hq, ih]

lemma cols_mapPair {β : Type} (names : List String) (g : String → β) :
    (names.map fun c => (c, g c)).map Prod.fst = names := by
  induction names with
  | nil => rfl
  | cons a t ih => simp [ih]

lemma categoriesFor_coast (vals : List Val) :
    categoriesFor "gcc_coast_type_flag" vals = ["Other", "Rocky", "Sandy", "Vegetated"] := by
  unfold categoriesFor
  rw [if_pos (by decide)]

lemma categoriesFor_veg (vals : List Val) :
    categoriesFor "gcc_veg_type" vals = ["Mangroves", "Salt-marshes"] := by
  unfold categoriesFor
  rw [if_neg (by decide), if_pos (by decide)]

/-- The column names produced by `encode_categorical` are a function of
the input column names alone, whenever the feature's vocabulary does not
depend on the data (the fixed-vocabulary coastal indicators). -/
lemma encode_cols_spec (df : Df) (name : String) (cats : List String)
    (hconst : ∀ v : List Val, categoriesFor name v = cats) :
    (encode_categorical df name).1.map Prod.fst =
      encode_cols (df.map Prod.fst) name (cats.map fun c => name ++ "_" ++ c) := by
  unfold encode_categorical encode_cols
  cases h : lookupCol name df with
  | none =>
    rw [if_neg ((lookupCol_eq_none_iff name df).mp h)]
  | some vals =>
    have hmem : name ∈ df.map Prod.fst := by
      by_contra hno
      rw [(lookupCol_eq_none_iff name df).mpr hno] at h
      exact Option.noConfusion h
    rw [if_pos hmem, List.map_append, cols_filter df fun c => c != name, hconst vals]
    congr 1
    rw [List.map_map]
    rfl

/-- On the coastal path (the region has a segment within 100 km), the
column names of a region's Feature Record after the GCC step are a
function of the input column names alone: the cell values (here the
abstract `g`) cannot influence the column set. -/
lemma gcc_step_coastal_spec (df : Df) (g : String → List Val)
    (h : coastalNonempty (df.filter fun p => !(strStarts p.1 "gcc_")) = true) :
    (gcc_step df g).map Prod.fst = gcc_step_cols (df.map Prod.fst) := by
  simp only [gcc_step, gcc_step_cols]
  rw [if_pos h,
      encode_cols_spec _ _ ["Mangroves", "Salt-marshes"] categoriesFor_veg,
      encode_cols_spec _ _ ["Other", "Rocky", "Sandy", "Vegetated"] categoriesFor_coast,
      List.map_append, cols_filter df fun c => !(strStarts c "gcc_"), cols_mapPair]

/-- On the empty-coastal path the early return keeps the cleaned record:
no gcc column is ever added. -/
lemma gcc_step_no_coastal (df : Df) (g : String → List Val)
    (h : coastalNonempty (df.filter fun p => !(strStarts p.1 "gcc_")) = false) :
    gcc_step df g = df.filter fun p => !(strStarts p.1 "gcc_") := by
  simp only [gcc_step]
  rw [if_neg (by simp [h])]

/-- An expected category that never occurs in the column's data yields an
all-zero dummy column. -/
lemma dummyCol_all_zero (vals : List Val) (cat : String)
    (h : Val.str cat ∉ vals) :
    dummyCol vals cat = List.replicate vals.length (Val.num 0) := by
  induction vals with
  | nil => rfl
  | cons v t ih =>
    have hv : ¬(v = Val.str cat) := fun he => h (List.mem_cons.mpr (Or.inl he.symm))
    simp only [dummyCol, List.map_cons, if_neg hv, List.length_cons, List.replicate_succ]
    exact congrArg _ (ih fun hm => h (List.mem_cons_of_mem _ hm))

/-!
## Claim theorems
-/

/-- C1 counterexample: the schema invariant fails between a region with a
coastal segment and one without.  Both input records have the same single
column `dist_to_coast_km`, but the region whose only segment lies 500 km
inland takes the early return of `match_gcc_to_segments` (lines 215-217)
and is persisted with no gcc column at all, while the region with a
segment at 5 km gains the full gcc column block, so the persisted column
sets differ. -/
theorem c1_schema_invariant_counterexample :
    ([("dist_to_coast_km", [Val.num 5])] : Df).map Prod.fst =
      ([("dist_to_coast_km", [Val.num 500])] : Df).map Prod.fst ∧
    (gcc_step [("dist_to_coast_km", [Val.num 5])] (fun _ => [Val.nan])).map Prod.fst ≠
      (gcc_step [("dist_to_coast_km", [Val.num 500])] (fun _ => [Val.nan])).map Prod.fst := by
  exact ⟨rfl, by decide⟩

/-- C1 amended: for two regions that EACH have at least one segment
within 100 km of the coast, the column set of the Feature Record after
the GCC step is determined by the input column set alone (equal input
columns give equal output columns, whatever the data values); a region
with no coastal segment is instead persisted with no gcc column at all;
and the one-hot columns for the coastal categorical indicators come from
the fixed closed vocabulary, a category absent from a region's data
yielding an all-zero column rather than a missing column. -/
theorem c1_schema_invariant_amended :
    (∀ (df1 df2 : Df) (g1 g2 : String → List Val),
      coastalNonempty (df1.filter fun p => !(strStarts p.1 "gcc_")) = true →
      coastalNonempty (df2.filter fun p => !(strStarts p.1 "gcc_")) = true →
      df1.map Prod.fst = df2.map Prod.fst →
      (gcc_step df1 g1).map Prod.fst = (gcc_step df2 g2).map Prod.fst) ∧
    (∀ (df : Df) (g : String → List Val),
      coastalNonempty (df.filter fun p => !(strStarts p.1 "gcc_")) = false →
      gcc_step df g = df.filter fun p => !(strStarts p.1 "gcc_")) ∧
    (∀ (df : Df) (vals : List Val) (cat : String),
      lookupCol "gcc_veg_type" df = some vals →
      cat ∈ ["Mangroves", "Salt-marshes"] →
      Val.str cat ∉ vals →
      ("gcc_veg_type" ++ "_" ++ cat, List.replicate vals.length (Val.num 0)) ∈
        (encode_categorical df "gcc_veg_type").1) := by
  refine ⟨?_, ?_, ?_⟩
  · intro df1 df2 g1 g2 h1 h2 h
    rw [gcc_step_coastal_spec df1 g1 h1, gcc_step_coastal_spec df2 g2 h2, h]
  · intro df g h
    exact gcc_step_no_coastal df g h
  · intro df vals cat hlook hcat habs
    simp only [encode_categorical, hlook, categoriesFor_veg]
    refine List.mem_append_right _ ?_
    have hmem : ("gcc_veg_type" ++ "_" ++ cat, dummyCol vals cat) ∈
        List.map (fun c => ("gcc_veg_type" ++ "_" ++ c, dummyCol vals c))
          ["Mangroves", "Salt-marshes"] :=
      List.mem_map_of_mem _ hcat
    rw [dummyCol_all_zero vals cat habs] at hmem
    exact hmem

/-- Witness for C1: two one-row coastal regions with equal column sets
but different data get equal output column sets; a region with only an
inland segment keeps no gcc column; and the Salt-marshes category,
absent from the data, gets an all-zero one-hot column. -/
theorem c1_schema_invariant_amended_witness :
    (gcc_step [("dist_to_coast_km", [Val.num 5]), ("gcc_veg_type", [Val.str "Mangroves"])]
        (fun _ => [Val.nan])).map Prod.fst =
      (gcc_step [("dist_to_coast_km", [Val.num 7]), ("gcc_veg_type", [Val.nan])]
        (fun c => [Val.str c])).map Prod.fst ∧
    gcc_step [("dist_to_coast_km", [Val.num 500])] (fun _ => [Val.nan]) =
      [("dist_to_coast_km", [Val.num 500])] ∧
    ("gcc_veg_type" ++ "_" ++ "Salt-marshes", List.replicate 1 (Val.num 0)) ∈
      (encode_categorical [("gcc_veg_type", [Val.str "Mangroves"])] "gcc_veg_type").1 := by
  refine ⟨c1_schema_invariant_amended.1 _ _ _ _ (by decide) (by decide) rfl, ?_, ?_⟩
  · exact c1_schema_invariant_amended.2.1 [("dist_to_coast_km", [Val.num 500])]
      (fun _ => [Val.nan]) (by decide)
  · exact c1_schema_invariant_amended.2.2 [("gcc_veg_type", [Val.str "Mangroves"])]
      [Val.str "Mangroves"] "Salt-marshes" rfl (by decide) (by decide)

/-- C7 counterexample: the claim that ALL persisted gcc columns of an
unmatched coastal segment hold NaN is false: after the categorical
encoding, the one-hot gcc columns of an unmatched segment hold literal 0,
not NaN (here the segment at 5 km from the coast with nearest indicator
at 0.06 degrees gets gcc_veg_type_Mangroves = 0). -/
theorem c7_unmatched_gcc_counterexample :
    gcc_feature_value (3/50) (Val.str "Mangroves") = Val.nan ∧
    ("gcc_veg_type" ++ "_" ++ "Mangroves", [Val.num 0]) ∈
      gcc_step [("global_id", [Val.num 1]), ("dist_to_coast_km", [Val.num 5])]
        (fun _ => [gcc_feature_value (3/50) (Val.str "Mangroves")]) ∧
    Val.num 0 ≠ Val.nan := by
  have hg : gcc_feature_value (3/50) (Val.str "Mangroves") = Val.nan := by
    norm_num [gcc_feature_value, MATCH_DISTANCE_DEGREES]
  refine ⟨hg, ?_, by decide⟩
  simp only [hg]
  decide

/-- C7 amended: in the matching step itself every gcc feature value of an
unmatched segment (nearest indicator beyond the 0.05-degree radius) is
NaN, not zero; but the subsequent fixed-vocabulary one-hot encoding turns
each categorical gcc column of such a segment into literal 0 (an all-NaN
categorical column yields all-zero dummy columns in the persisted
record). -/
theorem c7_unmatched_gcc_amended :
    (∀ (d : ℚ) (v : Val), d > MATCH_DISTANCE_DEGREES → gcc_feature_value d v = Val.nan) ∧
    (∀ (vals : List Val) (cat : String), (∀ x ∈ vals, x = Val.nan) →
      dummyCol vals cat = List.replicate vals.length (Val.num 0)) := by
  constructor
  · intro d v hd
    unfold gcc_feature_value
    rw [if_neg (not_le.mpr hd)]
  · intro vals cat
    induction vals with
    | nil => intro _; rfl
    | cons v t ih =>
      intro hall
      have hv : v = Val.nan := hall v (List.mem_cons_self v t)
      subst hv
      simp only [dummyCol, List.map_cons, if_neg (show ¬(Val.nan = Val.str cat) by simp),
        List.length_cons, List.replicate_succ]
      exact congrArg _ (ih fun x hx => hall x (List.mem_cons_of_mem _ hx))

/-- Witness for C7: a nearest-indicator distance of 0.06 degrees gives
NaN, and an all-NaN one-cell categorical column encodes to [0]. -/
theorem c7_unmatched_gcc_amended_witness :
    gcc_feature_value (3/50) (Val.str "Sandy") = Val.nan ∧
    dummyCol [Val.nan] "Mangroves" = List.replicate 1 (Val.num 0) := by
  refine ⟨c7_unmatched_gcc_amended.1 (3/50) (Val.str "Sandy")
    (by norm_num [MATCH_DISTANCE_DEGREES]), ?_⟩
  exact c7_unmatched_gcc_amended.2 [Val.nan] "Mangroves" (by intro x hx; simpa using hx)

/-- C10: the confidence-band function is total on probabilities and uses
strict lower cutoffs: HIGH iff p > 0.75, MEDIUM iff 0.60 < p ≤ 0.75,
LOW iff 0.45 < p ≤ 0.60, VERY-LOW iff p ≤ 0.45. -/
theorem c10_confidence_bands (p : ℚ) :
    (get_confidence_level p = "HIGH" ↔ p > 3/4) ∧
    (get_confidence_level p = "MEDIUM" ↔ 3/5 < p ∧ p ≤ 3/4) ∧
    (get_confidence_level p = "LOW" ↔ 9/20 < p ∧ p ≤ 3/5) ∧
    (get_confidence_level p = "VERY-LOW" ↔ p ≤ 9/20) := by
  unfold get_confidence_level
  split_ifs with h1 h2 h3
  · exact ⟨iff_of_true rfl h1,
      iff_of_false (by decide) (fun h => by linarith [h.2]),
      iff_of_false (by decide) (fun h => by linarith [h.2]),
      iff_of_false (by decide) (fun h => by linarith)⟩
  · exact ⟨iff_of_false (by decide) h1,
      iff_of_true rfl ⟨h2, not_lt.mp h1⟩,
      iff_of_false (by decide) (fun h => by linarith [h.2]),
      iff_of_false (by decide) (fun h => by linarith)⟩
  · exact ⟨iff_of_false (by decide) h1,
      iff_of_false (by decide) (fun h => h2 h.1),
      iff_of_true rfl ⟨h3, not_lt.mp h2⟩,
      iff_of_false (by decide) (fun h => by linarith)⟩
  · exact ⟨iff_of_false (by decide) h1,
      iff_of_false (by decide) (fun h => h2 h.1),
      iff_of_false (by decide) (fun h => h3 h.1),
      iff_of_true rfl (not_lt.mp h3)⟩

/-- Witness for C10: in particular, p = 0.75 maps to MEDIUM, not HIGH. -/
theorem c10_confidence_bands_witness : get_confidence_level (3/4) = "MEDIUM" :=
  ((c10_confidence_bands (3/4)).2.1).mpr (by norm_num)

/-- C9: the distance-ceiling rule is idempotent on every table of
predictions: applying the rule-override transformation twice produces the
same class, confidence and method-tag assignment as applying it once. -/
theorem c9_rule_idempotent (rows : List OutRow) :
    (rows.map apply_distance_rule).map apply_distance_rule =
      rows.map apply_distance_rule := by
  induction rows with
  | nil => rfl
  | cons a t ih => simp only [List.map_cons, apply_distance_rule_idem, ih]

/-- Witness for C9 at a concrete one-row table. -/
theorem c9_rule_idempotent_witness :
    (([{ global_id := 7, salinity_class_final := some "Polyhaline",
         prediction_probability := 9/10, confidence_level := "HIGH",
         classification_method := "ML_Coastal", dist_to_coast_km := 350 }] :
        List OutRow).map apply_distance_rule).map apply_distance_rule =
      ([{ global_id := 7, salinity_class_final := some "Polyhaline",
          prediction_probability := 9/10, confidence_level := "HIGH",
          classification_method := "ML_Coastal", dist_to_coast_km := 350 }] :
        List OutRow).map apply_distance_rule :=
  c9_rule_idempotent _

/-- C8: holdout validation refuses to score a region different from the
persisted holdout marker (and any region at all when the marker file is
missing); the decision reads the persisted marker, not the caller's
argument, and only the marker region itself is scored. -/
theorem c8_holdout_guard {α : Type} (region holdout : String) (rest : Unit → Option α) :
    (region ≠ holdout → validate_globsalt_holdout region (some holdout) rest = none) ∧
    validate_globsalt_holdout region none rest = none ∧
    validate_globsalt_holdout region (some region) rest = rest () := by
  refine ⟨fun h => ?_, rfl, ?_⟩
  · simp [validate_globsalt_holdout, h]
  · simp [validate_globsalt_holdout]

/-- Witness for C8: a training region is refused, the marker region is
scored. -/
theorem c8_holdout_guard_witness :
    validate_globsalt_holdout "AF" (some "SP") (fun _ => some (1 : ℕ)) = none ∧
    validate_globsalt_holdout "SP" (some "SP") (fun _ => some (1 : ℕ)) = some 1 :=
  ⟨(c8_holdout_guard "AF" "SP" _).1 (by decide), (c8_holdout_guard "SP" "SP" _).2.2⟩

/-- C5 counterexample: the claim that modeled discharge, salinity and TDS
are excluded from the feature sets of BOTH classifiers is false: the
coastal model's feature list explicitly contains all three, so for a
region whose Feature Record has those columns they land in the coastal
model's bound ordered feature-name list. -/
theorem c5_dynqual_exclusion_counterexample :
    "dynqual_salinity_psu" ∈
      availableFeatures (coastal_feature_cols coastal_base_features) coastal_base_features ∧
    "dynqual_tds_mgL" ∈
      availableFeatures (coastal_feature_cols coastal_base_features) coastal_base_features ∧
    "dynqual_discharge_m3s" ∈
      availableFeatures (coastal_feature_cols coastal_base_features) coastal_base_features := by
  decide

/-- C5 amended: the INLAND model's bound feature list never contains the
modeled salinity, TDS or discharge fields (its only DynQual feature is
temperature), whatever columns the region data has; the COASTAL model's
base feature list, by contrast, contains all three modeled fields. -/
theorem c5_dynqual_exclusion_amended (data_cols : List String) :
    ("dynqual_salinity_psu" ∉ availableFeatures inland_feature_cols data_cols ∧
     "dynqual_tds_mgL" ∉ availableFeatures inland_feature_cols data_cols ∧
     "dynqual_discharge_m3s" ∉ availableFeatures inland_feature_cols data_cols) ∧
    ("dynqual_salinity_psu" ∈ coastal_base_features ∧
     "dynqual_tds_mgL" ∈ coastal_base_features ∧
     "dynqual_discharge_m3s" ∈ coastal_base_features ∧
     "dynqual_temperature_C" ∈ inland_feature_cols) := by
  refine ⟨⟨fun h => ?_, fun h => ?_, fun h => ?_⟩, by decide⟩
  · exact absurd (List.mem_filter.mp h).1 (by decide)
  · exact absurd (List.mem_filter.mp h).1 (by decide)
  · exact absurd (List.mem_filter.mp h).1 (by decide)

/-- Witness for C5 at a concrete column set. -/
theorem c5_dynqual_exclusion_amended_witness :
    "dynqual_salinity_psu" ∉ availableFeatures inland_feature_cols inland_feature_cols ∧
    "dynqual_salinity_psu" ∈ coastal_base_features :=
  ⟨(c5_dynqual_exclusion_amended inland_feature_cols).1.1,
   (c5_dynqual_exclusion_amended inland_feature_cols).2.1⟩

/-- C6 counterexample: the claim that prediction aborts when a region's
Feature Record lacks an expected column is false: the coastal branch of
`predict_hybrid` appends each missing expected column with the value 0
(after a printed warning) and proceeds. -/
theorem c6_missing_columns_counterexample :
    fill_missing_features ["a", "b"] [("a", (3 : ℚ))] = [("a", 3), ("b", 0)] ∧
    lookupCol "b" (fill_missing_features ["a", "b"] [("a", (3 : ℚ))]) = some 0 := by
  exact ⟨by decide, by decide⟩

/-- C6 amended: when the coastal predictor finds expected feature columns
missing from the region's Feature Record, it does not abort; it keeps the
present columns unchanged and fills every missing expected column with 0
before predicting. -/
theorem c6_missing_columns_amended (features : List String)
    (cols : List (String × ℚ)) (f : String) :
    (f ∈ features → lookupCol f cols = none →
      lookupCol f (fill_missing_features features cols) = some 0) ∧
    (∀ v : ℚ, lookupCol f cols = some v →
      lookupCol f (fill_missing_features features cols) = some v) := by
  constructor
  · intro hf hnone
    unfold fill_missing_features
    rw [lookupCol_append_of_none _ _ _ hnone]
    exact lookupCol_map_zero _ _ (List.mem_filter.mpr ⟨hf, by simp [hnone]⟩)
  · intro v hv
    exact lookupCol_append_of_some _ _ _ _ hv

/-- Witness for C6: a record missing column b is zero-filled at b and
keeps the value of column a. -/
theorem c6_missing_columns_amended_witness :
    lookupCol "b" (fill_missing_features ["a", "b"] [("a", (3 : ℚ))]) = some 0 ∧
    lookupCol "a" (fill_missing_features ["a", "b"] [("a", (3 : ℚ))]) = some 3 :=
  ⟨(c6_missing_columns_amended ["a", "b"] [("a", 3)] "b").1 (by decide) (by decide),
   (c6_missing_columns_amended ["a", "b"] [("a", 3)] "a").2 3 (by decide)⟩

/-- C3 counterexample: the claim that EVERY prediction beyond 200 km is
forced to Freshwater is false: a Euhaline prediction at 350 km is left
untouched by the rule layer (the rule only fires on the three estuarine
classes Oligohaline / Mesohaline / Polyhaline). -/
theorem c3_distance_ceiling_counterexample :
    predict_hybrid (fun _ => ("Euhaline", 9/10)) (fun _ => ("Euhaline", 9/10))
        [{ global_id := 7, has_salinity := false, salinity_mean_psu := none,
           dist_to_coast_km := 350, feats := [] }] =
      [{ global_id := 7, salinity_class_final := some "Euhaline",
         prediction_probability := 9/10, confidence_level := "HIGH",
         classification_method := "ML_Inland", dist_to_coast_km := 350 }] ∧
    some "Euhaline" ≠ some "Freshwater" ∧ "ML_Inland" ≠ "Rule_Based_Distance" := by
  refine ⟨?_, by decide, by decide⟩
  norm_num [predict_hybrid, mkMLRow, apply_distance_rule, get_confidence_level,
    isEstuarinePred]
  decide

/-- C3 amended: the >200 km ceiling reclassifies a prediction to
Freshwater with HIGH confidence and the Rule_Based_Distance tag exactly
when the predicted class is one of the three estuarine classes
(Oligohaline, Mesohaline, Polyhaline); Euhaline and Freshwater
predictions beyond 200 km are not touched. -/
theorem c3_distance_ceiling_amended (r : OutRow)
    (hd : r.dist_to_coast_km > 200)
    (hc : isEstuarinePred r.salinity_class_final = true) :
    apply_distance_rule r =
      { r with salinity_class_final := some "Freshwater"
               confidence_level := "HIGH"
               classification_method := "Rule_Based_Distance" } := by
  unfold apply_distance_rule
  rw [if_pos ⟨hd, hc⟩]

/-- Witness for C3: a Polyhaline prediction at 350 km becomes Freshwater
at HIGH confidence with the Rule_Based_Distance tag. -/
theorem c3_distance_ceiling_amended_witness :
    apply_distance_rule
      { global_id := 7, salinity_class_final := some "Polyhaline",
        prediction_probability := 9/10, confidence_level := "HIGH",
        classification_method := "ML_Coastal", dist_to_coast_km := 350 } =
      { global_id := 7, salinity_class_final := some "Freshwater",
        prediction_probability := 9/10, confidence_level := "HIGH",
        classification_method := "Rule_Based_Distance", dist_to_coast_km := 350 } :=
  c3_distance_ceiling_amended _ (by norm_num) (by decide)

/-- C4 counterexample: the hybrid predictor has NO secondary 100-200 km
rule: a low-confidence Mesohaline prediction at 150 km keeps its class,
confidence and ML method tag. -/
theorem c4_secondary_rule_counterexample :
    predict_hybrid (fun _ => ("Mesohaline", 1/2)) (fun _ => ("Mesohaline", 1/2))
        [{ global_id := 3, has_salinity := false, salinity_mean_psu := none,
           dist_to_coast_km := 150, feats := [] }] =
      [{ global_id := 3, salinity_class_final := some "Mesohaline",
         prediction_probability := 1/2, confidence_level := "LOW",
         classification_method := "ML_Inland", dist_to_coast_km := 150 }] ∧
    some "Mesohaline" ≠ some "Freshwater" := by
  refine ⟨?_, by decide⟩
  norm_num [predict_hybrid, mkMLRow, apply_distance_rule, get_confidence_level,
    isEstuarinePred]

/-- C4 amended: the secondary softer rule lives in the NON-hybrid
predictor (ml_step3_predict.py): there, a low-confidence estuarine
prediction in the 100-200 km band is reclassified to Freshwater at
MEDIUM confidence with the Rule_Based_Hybrid tag, distinct from the hard
rule's Rule_Based_Distance tag; the hybrid predictor's rule layer leaves
such a row unchanged. -/
theorem c4_secondary_rule_amended (r : OutRow)
    (hd1 : r.dist_to_coast_km > 100) (hd2 : r.dist_to_coast_km ≤ 200)
    (hconf : r.confidence_level = "VERY-LOW" ∨ r.confidence_level = "LOW")
    (hest : isEstuarinePred r.salinity_class_final = true) :
    apply_distance_rules_step3 r =
      { r with salinity_class_final := some "Freshwater"
               confidence_level := "MEDIUM"
               classification_method := "Rule_Based_Hybrid" } ∧
    "Rule_Based_Hybrid" ≠ "Rule_Based_Distance" ∧
    apply_distance_rule r = r := by
  have h200 : ¬(r.dist_to_coast_km > 200 ∧
      isEstuarinePred r.salinity_class_final = true) :=
    fun hcon => absurd hcon.1 (by linarith)
  refine ⟨?_, by decide, ?_⟩
  · simp only [apply_distance_rules_step3]
    rw [if_neg h200, if_pos ⟨⟨hd1, hd2⟩, hconf, hest⟩]
  · unfold apply_distance_rule
    exact if_neg h200

/-- Witness for C4: a LOW-confidence Mesohaline prediction at 150 km under
the non-hybrid rule layer. -/
theorem c4_secondary_rule_amended_witness :
    apply_distance_rules_step3
      { global_id := 3, salinity_class_final := some "Mesohaline",
        prediction_probability := 1/2, confidence_level := "LOW",
        classification_method := "ML_Predicted", dist_to_coast_km := 150 } =
      { global_id := 3, salinity_class_final := some "Freshwater",
        prediction_probability := 1/2, confidence_level := "MEDIUM",
        classification_method := "Rule_Based_Hybrid", dist_to_coast_km := 150 } :=
  (c4_secondary_rule_amended _ (by norm_num) (by norm_num) (Or.inr rfl) (by decide)).1

/-- C2 counterexample: the claim fails in the early-return branch of
`predict_hybrid`: when every segment of the region carries a measured
salinity, the code returns early, tagging rows GlobSalt_Validated at HIGH
confidence and probability 1 but never creating a predicted-class column,
so a segment with measured salinity 12 PSU does not get the Venice class
Mesohaline. -/
theorem c2_ground_truth_bypass_counterexample :
    predict_hybrid (fun _ => ("Freshwater", 1)) (fun _ => ("Freshwater", 1))
        [{ global_id := 1, has_salinity := true, salinity_mean_psu := some 12,
           dist_to_coast_km := 10, feats := [] }] =
      [{ global_id := 1, salinity_class_final := none,
         prediction_probability := 1, confidence_level := "HIGH",
         classification_method := "GlobSalt_Validated", dist_to_coast_km := 10 }] ∧
    (none : Option String) ≠ some (classify_salinity (some 12)) := by
  exact ⟨by decide, by simp⟩

/-- C2 amended: provided at least one segment of the region lacks a
measured salinity (so the early-return branch is not taken), every
segment with a measured salinity is classified by the fixed Venice-System
thresholds applied to that measurement, at HIGH confidence, probability
1, with the ground-truth tag GlobSalt_Validated, regardless of the two
models' behaviour; 12 PSU yields Mesohaline. -/
theorem c2_ground_truth_bypass_amended (coastal inland : Segment → String × ℚ)
    (segs : List Segment) (s : Segment)
    (hs : s ∈ segs) (hval : s.has_salinity = true)
    (hmix : ∃ t ∈ segs, t.has_salinity = false) :
    mkValidatedRow s ∈ predict_hybrid coastal inland segs ∧
    (mkValidatedRow s).salinity_class_final = some (classify_salinity s.salinity_mean_psu) ∧
    (mkValidatedRow s).confidence_level = "HIGH" ∧
    (mkValidatedRow s).prediction_probability = 1 ∧
    (mkValidatedRow s).classification_method = "GlobSalt_Validated" ∧
    classify_salinity (some 12) = "Mesohaline" := by
  refine ⟨?_, rfl, rfl, rfl, rfl, by norm_num [classify_salinity]⟩
  obtain ⟨t, ht, htf⟩ := hmix
  have htmem : t ∈ segs.filter (fun s => !s.has_salinity) :=
    List.mem_filter.mpr ⟨ht, by simp [htf]⟩
  have hne : ¬((segs.filter fun s => !s.has_salinity).isEmpty = true) := by
    intro hemp
    rw [List.isEmpty_iff] at hemp
    rw [hemp] at htmem
    simp at htmem
  simp only [predict_hybrid]
  rw [if_neg hne]
  exact List.mem_append_left _
    (List.mem_map_of_mem _ (List.mem_filter.mpr ⟨hs, hval⟩))

/-- Witness for C2 on a two-segment region with one unvalidated segment. -/
theorem c2_ground_truth_bypass_amended_witness :
    mkValidatedRow { global_id := 1, has_salinity := true, salinity_mean_psu := some 12,
                     dist_to_coast_km := 10, feats := [] } ∈
      predict_hybrid (fun _ => ("Polyhaline", 1/2)) (fun _ => ("Polyhaline", 1/2))
        [{ global_id := 1, has_salinity := true, salinity_mean_psu := some 12,
           dist_to_coast_km := 10, feats := [] },
         { global_id := 2, has_salinity := false, salinity_mean_psu := none,
           dist_to_coast_km := 120, feats := [] }] ∧
    classify_salinity (some 12) = "Mesohaline" := by
  have h := c2_ground_truth_bypass_amended
    (fun _ => ("Polyhaline", 1/2)) (fun _ => ("Polyhaline", 1/2))
    [{ global_id := 1, has_salinity := true, salinity_mean_psu := some 12,
       dist_to_coast_km := 10, feats := [] },
     { global_id := 2, has_salinity := false, salinity_mean_psu := none,
       dist_to_coast_km := 120, feats := [] }]
    { global_id := 1, has_salinity := true, salinity_mean_psu := some 12,
      dist_to_coast_km := 10, feats := [] }
    (by decide) rfl
    ⟨{ global_id := 2, has_salinity := false, salinity_mean_psu := none,
       dist_to_coast_km := 120, feats := [] }, by decide, rfl⟩
  exact ⟨h.1, h.2.2.2.2.2⟩

end EstuaryMap
